import Mathlib

/-!
Shallow embedding of the MongoDB wire-protocol client in
`internal/proxy/mongo.go`: the header codec (`serializeHeader` and the
header parse in `readResponse`), the OP_MSG payload builders (`SendQuery`,
`SendCommand`), the transport (`sendRequest`, `readResponse`) and the
`Replset` connection manager (`NewReplset`, `Connect`, `SendMessage`,
`IsConnected`).

Modelling conventions:
* bytes are `Nat` values (< 256), byte strings are `List Nat`;
* Go `int32` values are `Int` together with explicit two's-complement
  wrapping (`wrap32`) where the Go program performs 32-bit arithmetic or a
  conversion, and Go (64-bit) `int` is `Int` directly;
* a TCP connection read side is the list of chunks that successive
  `conn.Read` calls deliver; one `Read` never crosses a chunk boundary,
  which is exactly the short-read behaviour the transport has to cope with;
* fallible operations return `Except`/`Option`, never panic.
-/

namespace MongoProxy

/-- Two's-complement reduction of an integer into the signed 32-bit range:
the semantics both of Go `int32` arithmetic overflow and of the Go
conversion `int32(x)`. -/
def wrap32 (x : Int) : Int := (x + 2 ^ 31) % 2 ^ 32 - 2 ^ 31

/-- The Go conversion `uint32(x)` applied to an `int32` value `x`:
the non-negative number with the same 32-bit pattern. -/
def toUInt32 (x : Int) : Nat := (x % 2 ^ 32).toNat

/-- Reinterpret a `uint32` bit pattern as the signed 32-bit value with the
same pattern (the declared `int32` field types of `MessageHeader`). -/
def toInt32 (u : Nat) : Int :=
  if u < 2 ^ 31 then (u : Int) else (u : Int) - 2 ^ 32

/-- `x` is representable by Go `int32`. -/
def isInt32 (x : Int) : Prop := -(2 ^ 31) ≤ x ∧ x < 2 ^ 31

instance (x : Int) : Decidable (isInt32 x) := by
  unfold isInt32; infer_instance

/-- `binary.LittleEndian.PutUint32`: the four little-endian bytes of
`n % 2^32`. -/
def putUint32LE (n : Nat) : List Nat :=
  [n % 256, n / 256 % 256, n / 65536 % 256, n / 16777216 % 256]

/-- `binary.LittleEndian.Uint32`: decode the first four bytes of a buffer
as a little-endian 32-bit value (missing bytes read as the zero padding of
a freshly `make`d Go buffer). -/
def getUint32LE (b : List Nat) : Nat :=
  b.getD 0 0 + 256 * b.getD 1 0 + 65536 * b.getD 2 0 + 16777216 * b.getD 3 0

/-- `HeaderSize` (mongo.go:28). -/
def HeaderSize : Nat := 16

/-- `OpMsg` (mongo.go:25). -/
def OpMsg : Int := 2013

/-- `MessageHeader` (mongo.go:32-37): four signed 32-bit fields. -/
structure MessageHeader where
  messageLength : Int
  requestID : Int
  responseTo : Int
  opCode : Int
  deriving Repr, DecidableEq

/-- `serializeHeader` (mongo.go:183-190): each field is converted with
`uint32(·)` and written little-endian, in the order messageLength,
requestID, responseTo, opCode. -/
def serializeHeader (header : MessageHeader) : List Nat :=
  putUint32LE (toUInt32 header.messageLength) ++
  putUint32LE (toUInt32 header.requestID) ++
  putUint32LE (toUInt32 header.responseTo) ++
  putUint32LE (toUInt32 header.opCode)

/-- Header deserialization: the four `binary.LittleEndian.Uint32` reads of
`readResponse` (mongo.go:225-228), at offsets 0, 4, 8, 12, reinterpreted
at the declared `int32` field types of `MessageHeader`. -/
def deserializeHeader (b : List Nat) : MessageHeader :=
  { messageLength := toInt32 (getUint32LE b)
  , requestID := toInt32 (getUint32LE (b.drop 4))
  , responseTo := toInt32 (getUint32LE (b.drop 8))
  , opCode := toInt32 (getUint32LE (b.drop 12)) }

-- ### Arithmetic facts about the 32-bit helpers

theorem wrap32_emod (x : Int) : wrap32 x % 2 ^ 32 = x % 2 ^ 32 := by
  unfold wrap32; omega

theorem toUInt32_wrap32 (x : Int) : toUInt32 (wrap32 x) = toUInt32 x := by
  unfold toUInt32 wrap32; omega

theorem toUInt32_lt (x : Int) : toUInt32 x < 2 ^ 32 := by
  unfold toUInt32; omega

theorem toInt32_toUInt32 (x : Int) (hx : isInt32 x) : toInt32 (toUInt32 x) = x := by
  unfold toInt32 toUInt32
  unfold isInt32 at hx
  split <;> omega

theorem putUint32LE_length (n : Nat) : (putUint32LE n).length = 4 := rfl

theorem getUint32LE_putUint32LE (n : Nat) (rest : List Nat) :
    getUint32LE (putUint32LE n ++ rest) = n % 2 ^ 32 := by
  simp only [putUint32LE, getUint32LE, List.cons_append, List.nil_append,
    List.getD_cons_zero, List.getD_cons_succ]
  omega

theorem drop4_putUint32LE (n : Nat) (rest : List Nat) :
    (putUint32LE n ++ rest).drop 4 = rest := rfl

theorem getUint32LE_putUint32LE_toUInt32 (x : Int) (rest : List Nat) :
    getUint32LE (putUint32LE (toUInt32 x) ++ rest) = toUInt32 x := by
  rw [getUint32LE_putUint32LE]
  exact Nat.mod_eq_of_lt (toUInt32_lt x)

-- ### Transport: the read side of a connection and `readResponse`

/-- The read side of a TCP connection: the list of data chunks that
successive `conn.Read` calls will deliver.  A single `Read` returns at
most one chunk (TCP gives no message-boundary guarantee). -/
abbrev ByteStream := List (List Nat)

/-- One Go `conn.Read(buf)` call with `len(buf) = n`: it delivers up to
`n` bytes from the front of the stream and never waits for more once any
bytes are available; `none` models a read error (e.g. EOF on an exhausted
stream).  A zero-length buffer returns immediately with no bytes. -/
def connRead (s : ByteStream) (n : Nat) : Option (List Nat × ByteStream) :=
  if n = 0 then some ([], s)
  else
    match s with
    | [] => none
    | c :: rest =>
      if c.length ≤ n then some (c, rest)
      else some (c.take n, c.drop n :: rest)

/-- The errors `readResponse` can return: a failed `conn.Read`, or the
`"invalid message length: %d"` framing error. -/
inductive RespError where
  | readErr : RespError
  | invalidMessageLength (messageLength : Nat) : RespError
  deriving Repr, DecidableEq

/-- `readResponse` (mongo.go:216-248).  It issues a single `conn.Read`
into a zeroed 16-byte buffer and ignores the returned count, decodes
`messageLength` with `binary.LittleEndian.Uint32` (unsigned), computes
`payloadSize = int(messageLength) - HeaderSize` with 64-bit `int`
arithmetic, rejects a negative `payloadSize`, then issues a single
`conn.Read` into a zeroed `payloadSize`-byte buffer, again ignoring the
count, and returns that buffer. -/
def readResponse (s : ByteStream) : Except RespError (List Nat × ByteStream) :=
  match connRead s HeaderSize with
  | none => .error .readErr
  | some (got, s1) =>
    let headerBytes := got ++ List.replicate (HeaderSize - got.length) 0
    let messageLength := getUint32LE headerBytes
    let payloadSize : Int := (messageLength : Int) - (HeaderSize : Int)
    if payloadSize < 0 then .error (.invalidMessageLength messageLength)
    else
      match connRead s1 payloadSize.toNat with
      | none => .error .readErr
      | some (got2, s2) =>
        .ok (got2 ++ List.replicate (payloadSize.toNat - got2.length) 0, s2)

-- ### The `Replset` connection manager

/-- An opaque handle standing for a `net.Conn` value. -/
abbrev ConnId := Nat

/-- The behaviour a connection exhibits towards the program: whether a
`conn.Write` succeeds, and the chunks its read side will deliver. -/
structure ConnState where
  writeOk : Bool
  stream : ByteStream
  deriving Repr, DecidableEq

/-- The state of the network outside the program: the behaviour of each
connection handle. -/
abbrev Network := ConnId → ConnState

/-- Point update of the network after consuming part of a connection's
read side. -/
def updateNet (net : Network) (cid : ConnId) (c : ConnState) : Network :=
  fun i => if i = cid then c else net i

/-- `Replset` (mongo.go:40-45): the configured node addresses, the
address→connection map (modelled as an association list whose order is
one fixed iteration order of the Go map), and the `requestID` counter. -/
structure Replset where
  nodes : List String
  conns : List (String × ConnId)
  requestID : Int
  deriving Repr, DecidableEq

/-- `NewReplset` (mongo.go:48-53): empty connection map, zero-valued
`requestID` counter. -/
def NewReplset (nodes : List String) : Replset :=
  { nodes := nodes, conns := [], requestID := 0 }

/-- Go map assignment `conns[node] = c`: replace the entry if the key is
present, otherwise add it. -/
def insertConn (conns : List (String × ConnId)) (node : String) (c : ConnId) :
    List (String × ConnId) :=
  if conns.any (fun p => p.1 = node) then
    conns.map (fun p => if p.1 = node then (node, c) else p)
  else
    conns ++ [(node, c)]

/-- `IsConnected` (mongo.go:273-277): `len(r.conns) > 0`. -/
def IsConnected (r : Replset) : Bool := decide (0 < r.conns.length)

/-- The connect-time error `"failed to connect to %s: %w"`. -/
inductive ConnError where
  | dialFailed (node : String) : ConnError
  deriving Repr, DecidableEq

/-- The observable outcome of a `Connect` call: its result, the final
`Replset` state, the trace of addresses dialed, the handles of the
connections opened during the call (in order), and the handles of the
connections closed by `closeConnections`. -/
structure ConnectResult where
  res : Except ConnError Unit
  state : Replset
  dialed : List String
  opened : List ConnId
  closed : List ConnId
  deriving Repr

/-- The loop of `Connect` (mongo.go:60-68) over the remaining node list.
`dialOk` says which addresses `net.DialTimeout` can reach; every
successful dial returns a **fresh** socket, modelled by handing out the
next unused handle `next` — in particular, dialing the same address
twice opens two distinct connections, and the map assignment
`r.conns[node] = conn` then overwrites (and drops the handle of) the
earlier one.  On the first failure `closeConnections` (mongo.go:251-260)
closes exactly the connections still in the map — `conns.map Prod.snd` —
and resets the map to a fresh empty one. -/
def connectLoop (dialOk : String → Bool) (nodes : List String)
    (requestID : Int) (next : ConnId) (conns : List (String × ConnId))
    (dialed : List String) (opened : List ConnId) :
    List String → ConnectResult
  | [] =>
    { res := .ok ()
      state := { nodes := nodes, conns := conns, requestID := requestID }
      dialed := dialed, opened := opened, closed := [] }
  | node :: rem =>
    match dialOk node with
    | true =>
      connectLoop dialOk nodes requestID (next + 1)
        (insertConn conns node next)
        (dialed ++ [node]) (opened ++ [next]) rem
    | false =>
      { res := .error (.dialFailed node)
        state := { nodes := nodes, conns := [], requestID := requestID }
        dialed := dialed ++ [node], opened := opened
        closed := conns.map Prod.snd }

/-- `Connect` (mongo.go:56-71): dial every configured node in order,
aborting on the first failure.  `next` is the first unused connection
handle. -/
def Connect (dialOk : String → Bool) (next : ConnId) (r : Replset) :
    ConnectResult :=
  connectLoop dialOk r.nodes r.requestID next r.conns [] [] r.nodes

-- ### `sendRequest` and `SendMessage`

/-- The errors `SendMessage` can return: `"no connections available"`,
`"failed to send request: %w"`, `"failed to read response: %w"`. -/
inductive SendError where
  | noConnections : SendError
  | sendFailed : SendError
  | readFailed (e : RespError) : SendError
  deriving Repr, DecidableEq

/-- An I/O action performed on the selected connection. -/
inductive WireEvent where
  | write (bytes : List Nat) : WireEvent
  | readAttempt : WireEvent
  deriving Repr, DecidableEq

/-- The bytes `sendRequest` (mongo.go:193-213) hands to its single
`conn.Write`: `serializeHeader` of
`{int32(HeaderSize + len(payload)), requestID, 0, opCode}` followed by
the payload. -/
def requestMessage (opCode requestID : Int) (payload : List Nat) : List Nat :=
  serializeHeader
    { messageLength := wrap32 ((HeaderSize : Int) + payload.length)
    , requestID := requestID
    , responseTo := 0
    , opCode := opCode } ++ payload

/-- The observable outcome of a `SendMessage` call: its result, the final
`Replset` state, the network after the exchange, and the trace of I/O
actions on the selected connection. -/
structure SendResult where
  res : Except SendError (List Nat)
  state : Replset
  net : Network
  events : List WireEvent

/-- `SendMessage` (mongo.go:81-114): fail with the no-connections error
on an empty map; otherwise select the first connection in iteration
order, increment the `requestID` counter (`int32` wrap-around), send the
framed request with a single write, and block reading the paired
response.  On a read error the residual socket state is not modelled and
the network is returned unchanged. -/
def SendMessage (net : Network) (r : Replset) (opCode : Int)
    (payload : List Nat) : SendResult :=
  match r.conns with
  | [] => { res := .error .noConnections, state := r, net := net, events := [] }
  | (_, cid) :: _ =>
    let requestID := wrap32 (r.requestID + 1)
    let r' := { r with requestID := requestID }
    let message := requestMessage opCode requestID payload
    let conn := net cid
    if conn.writeOk then
      match readResponse conn.stream with
      | .error e =>
        { res := .error (.readFailed e), state := r', net := net
          events := [.write message, .readAttempt] }
      | .ok (payloadBytes, rest) =>
        { res := .ok payloadBytes, state := r'
          net := updateNet net cid { conn with stream := rest }
          events := [.write message, .readAttempt] }
    else
      { res := .error .sendFailed, state := r', net := net
        events := [.write message] }

-- ### OP_MSG payload builders

/-- The payload `SendQuery` (mongo.go:117-132) builds: a zero `uint32`
flag field, the kind-0 tag byte, then the raw query document. -/
def buildQueryPayload (query : List Nat) : List Nat :=
  putUint32LE 0 ++ [0] ++ query

/-- `SendQuery` (mongo.go:117-132). -/
def SendQuery (net : Network) (r : Replset) (query : List Nat) : SendResult :=
  SendMessage net r OpMsg (buildQueryPayload query)

/-- The bytes of the identifier string `"documents"` (ASCII). -/
def documentsIdentifier : List Nat :=
  [100, 111, 99, 117, 109, 101, 110, 116, 115]

/-- The payload `SendCommand` (mongo.go:135-180) builds: a zero `uint32`
flag field, the kind-0 tag byte and the command document; then, only when
`documents` is non-empty, the kind-1 tag byte, the little-endian `int32`
section size accumulated with `int32` arithmetic (`totalSize` starts at 4,
adds `int32(len(identifier)+1)`, then `int32(len(doc))` for each
document), the null-terminated identifier, and every document in input
order. -/
def buildCommandPayload (command : List Nat) (documents : List (List Nat)) :
    List Nat :=
  let base := putUint32LE 0 ++ [0] ++ command
  if documents.isEmpty then base
  else
    let identifier := documentsIdentifier
    let totalSize : Int :=
      documents.foldl (fun acc doc => wrap32 (acc + wrap32 (doc.length : Int)))
        (wrap32 ((4 : Int) + wrap32 ((identifier.length : Int) + 1)))
    base ++ [1] ++ putUint32LE (toUInt32 totalSize) ++
      identifier ++ [0] ++ documents.flatten

/-- `SendCommand` (mongo.go:135-180). -/
def SendCommand (net : Network) (r : Replset) (command : List Nat)
    (documents : List (List Nat)) : SendResult :=
  SendMessage net r OpMsg (buildCommandPayload command documents)

-- ### Running a sequence of `SendMessage` calls

/-- The bytes of each write event, in order. -/
def writesOf : List WireEvent → List (List Nat)
  | [] => []
  | .write b :: es => b :: writesOf es
  | .readAttempt :: es => writesOf es

/-- Perform a list of `SendMessage` calls in order, threading the
`Replset` state and the network, and collect every message written. -/
def runSends (net : Network) (r : Replset) :
    List (Int × List Nat) → Replset × List (List Nat)
  | [] => (r, [])
  | (op, payload) :: rest =>
    let s := SendMessage net r op payload
    let t := runSends s.net s.state rest
    (t.1, writesOf s.events ++ t.2)

-- ### Further helper lemmas

theorem drop8_putUint32LE (a b : Nat) (rest : List Nat) :
    (putUint32LE a ++ (putUint32LE b ++ rest)).drop 8 = rest := rfl

theorem drop12_putUint32LE (a b c : Nat) (rest : List Nat) :
    (putUint32LE a ++ (putUint32LE b ++ (putUint32LE c ++ rest))).drop 12 =
      rest := rfl

-- ### Claim theorems

/-- C6: `serializeHeader` produces exactly 16 bytes, the four fields
little-endian in the order messageLength, requestID, responseTo, opCode,
and decoding those 16 bytes in the same order (the header parse of
`readResponse`, at the declared `int32` field types) recovers the
original tuple. -/
theorem serializeHeader_roundTrip (h : MessageHeader)
    (h1 : isInt32 h.messageLength) (h2 : isInt32 h.requestID)
    (h3 : isInt32 h.responseTo) (h4 : isInt32 h.opCode) :
    (serializeHeader h).length = 16 ∧
    deserializeHeader (serializeHeader h) = h := by
  obtain ⟨ml, rid, rto, op⟩ := h
  refine ⟨by simp [serializeHeader, putUint32LE], ?_⟩
  simp only [serializeHeader, deserializeHeader, List.append_assoc]
  rw [MessageHeader.mk.injEq]
  refine ⟨?_, ?_, ?_, ?_⟩
  · rw [getUint32LE_putUint32LE_toUInt32, toInt32_toUInt32 _ h1]
  · rw [drop4_putUint32LE, getUint32LE_putUint32LE_toUInt32,
      toInt32_toUInt32 _ h2]
  · rw [drop8_putUint32LE, getUint32LE_putUint32LE_toUInt32,
      toInt32_toUInt32 _ h3]
  · rw [drop12_putUint32LE]
    rw [show (putUint32LE (toUInt32 op)) =
      (putUint32LE (toUInt32 op) ++ ([] : List Nat)) by simp]
    rw [getUint32LE_putUint32LE_toUInt32, toInt32_toUInt32 _ h4]

/-- C6 witness: the round trip at the concrete header
`{16, -1, 0, 2013}`. -/
theorem serializeHeader_roundTrip_witness :
    (serializeHeader ⟨16, -1, 0, 2013⟩).length = 16 ∧
    deserializeHeader (serializeHeader ⟨16, -1, 0, 2013⟩) = ⟨16, -1, 0, 2013⟩ :=
  serializeHeader_roundTrip ⟨16, -1, 0, 2013⟩ (by decide) (by decide)
    (by decide) (by decide)

/-- C8: the query payload is exactly the 4 zero flag bytes, the single
kind-0 tag byte `0`, and the input document bytes, nothing further; the
query path sends exactly this payload, so no kind-1 section is ever
emitted there. -/
theorem buildQueryPayload_bytes (net : Network) (r : Replset)
    (query : List Nat) :
    buildQueryPayload query = [0, 0, 0, 0] ++ [0] ++ query ∧
    SendQuery net r query = SendMessage net r OpMsg (buildQueryPayload query) :=
  ⟨rfl, rfl⟩

theorem sendMessage_empty_eq (net : Network) (r : Replset)
    (opCode : Int) (payload : List Nat) (h : r.conns = []) :
    SendMessage net r opCode payload =
      { res := .error .noConnections, state := r, net := net, events := [] } := by
  unfold SendMessage
  rw [h]

/-- C4: `SendMessage` on an empty connection set fails with the
no-connections error, performs no I/O (empty event trace) and leaves the
entire state — `requestID` counter included — and the network
unchanged. -/
theorem sendMessage_noConnections (net : Network) (r : Replset)
    (opCode : Int) (payload : List Nat) (h : r.conns = []) :
    SendMessage net r opCode payload =
      { res := .error .noConnections, state := r, net := net, events := [] } :=
  sendMessage_empty_eq net r opCode payload h

/-- C4 witness: a never-connected `Replset`. -/
theorem sendMessage_noConnections_witness :
    (NewReplset ["a"]).conns = [] ∧
    SendMessage (fun _ => ⟨true, []⟩) (NewReplset ["a"]) 2013 [1, 2] =
      { res := .error .noConnections, state := NewReplset ["a"]
        net := fun _ => ⟨true, []⟩, events := [] } :=
  ⟨rfl, sendMessage_noConnections _ _ _ _ rfl⟩

/-- C9: for a `Replset` built from an empty node list, `Connect` returns
no error and dials nothing, yet `IsConnected` stays false and
`SendMessage` still fails with the no-connections error. -/
theorem connect_emptyNodes (dialOk : String → Bool) (next : ConnId)
    (net : Network) (opCode : Int) (payload : List Nat) :
    (Connect dialOk next (NewReplset [])).res = .ok () ∧
    (Connect dialOk next (NewReplset [])).dialed = [] ∧
    IsConnected (Connect dialOk next (NewReplset [])).state = false ∧
    (SendMessage net (Connect dialOk next (NewReplset [])).state opCode
      payload).res = .error .noConnections :=
  ⟨rfl, rfl, rfl, rfl⟩

/-- C1 (code bug): a response header whose `messageLength` field holds
the bytes `FF FF FF FF` — the signed `int32` value `-1`, which is less
than 16 — does **not** make `readResponse` fail with the framing error:
the field is decoded with `binary.LittleEndian.Uint32`, so
`payloadSize = 4294967295 - 16 ≥ 0` passes the check and the code goes on
to attempt a payload read of that size (here failing with a plain read
error on the exhausted stream). -/
theorem readResponse_negativeLength_noFramingError :
    toInt32 (getUint32LE ([255, 255, 255, 255] ++ List.replicate 12 0)) = -1 ∧
    readResponse [[255, 255, 255, 255] ++ List.replicate 12 0] =
      .error .readErr :=
  ⟨by decide, rfl⟩

/-- C2 (code bug): `readResponse` issues a single `conn.Read` for the
header and a single `conn.Read` for the payload and ignores the returned
counts, so it does not accumulate across short reads: the very same
17-byte response (`messageLength = 17`, payload `[171]`) yields payload
`[171]` when it arrives in one chunk but the truncated payload `[0]`
when it arrives split as 8 + 9 bytes. -/
theorem readResponse_shortRead_truncates :
    readResponse [[17, 0, 0, 0, 1, 0, 0, 0], [0, 0, 0, 0, 1, 0, 0, 0, 171]] =
      .ok ([0], [[0, 0, 0, 1, 0, 0, 0, 171]]) ∧
    readResponse [[17, 0, 0, 0, 1, 0, 0, 0, 0, 0, 0, 0, 1, 0, 0, 0, 171]] =
      .ok ([171], []) :=
  ⟨rfl, rfl⟩

-- ### Membership lemmas for the connection map

theorem mem_insertConn_self (conns : List (String × ConnId)) (node : String)
    (c : ConnId) : (node, c) ∈ insertConn conns node c := by
  unfold insertConn
  by_cases hmem : conns.any (fun p => p.1 = node)
  · rw [if_pos hmem]
    rcases List.any_eq_true.mp hmem with ⟨p, hp, hpn⟩
    have himg : (fun q : String × ConnId =>
        if q.1 = node then (node, c) else q) p = (node, c) := by
      simp [decide_eq_true_eq.mp hpn]
    have hmap := List.mem_map_of_mem
      (fun q : String × ConnId => if q.1 = node then (node, c) else q) hp
    rw [himg] at hmap
    exact hmap
  · rw [if_neg hmem]
    exact List.mem_append_right _ (List.mem_singleton.mpr rfl)

theorem mem_insertConn_of_ne (conns : List (String × ConnId)) (node : String)
    (c' : ConnId) (a : String) (c : ConnId) (h : (a, c) ∈ conns)
    (hne : a ≠ node) : (a, c) ∈ insertConn conns node c' := by
  unfold insertConn
  by_cases hmem : conns.any (fun p => p.1 = node)
  · rw [if_pos hmem]
    have himg : (fun q : String × ConnId =>
        if q.1 = node then (node, c') else q) (a, c) = (a, c) := by
      simp [hne]
    have hmap := List.mem_map_of_mem
      (fun q : String × ConnId => if q.1 = node then (node, c') else q) h
    rw [himg] at hmap
    exact hmap
  · rw [if_neg hmem]
    exact List.mem_append_left _ h

-- ### The failure path of `Connect`

theorem connectLoop_nil (dialOk : String → Bool) (nodes : List String)
    (rid : Int) (next : ConnId) (conns : List (String × ConnId))
    (dialed : List String) (opened : List ConnId) :
    connectLoop dialOk nodes rid next conns dialed opened [] =
      { res := .ok ()
        state := { nodes := nodes, conns := conns, requestID := rid }
        dialed := dialed, opened := opened, closed := [] } := rfl

theorem connectLoop_cons (dialOk : String → Bool) (nodes : List String)
    (rid : Int) (next : ConnId) (conns : List (String × ConnId))
    (dialed : List String) (opened : List ConnId) (node : String)
    (rem : List String) :
    connectLoop dialOk nodes rid next conns dialed opened (node :: rem) =
      match dialOk node with
      | true =>
        connectLoop dialOk nodes rid (next + 1) (insertConn conns node next)
          (dialed ++ [node]) (opened ++ [next]) rem
      | false =>
        { res := .error (.dialFailed node)
          state := { nodes := nodes, conns := [], requestID := rid }
          dialed := dialed ++ [node], opened := opened
          closed := conns.map Prod.snd } := rfl

theorem connectLoop_fail (dialOk : String → Bool) (nodes : List String)
    (rid : Int) (bad : String) (rest : List String)
    (hbad : dialOk bad = false) :
    ∀ (pre : List String) (next : ConnId) (conns : List (String × ConnId))
      (dialed : List String) (opened : List ConnId),
      (∀ n ∈ pre, dialOk n = true) →
      pre.Nodup →
      (∀ c ∈ opened, ∃ addr, (addr, c) ∈ conns ∧ addr ∉ pre) →
      (connectLoop dialOk nodes rid next conns dialed opened
          (pre ++ bad :: rest)).res = .error (.dialFailed bad) ∧
      (connectLoop dialOk nodes rid next conns dialed opened
          (pre ++ bad :: rest)).state.conns = [] ∧
      (connectLoop dialOk nodes rid next conns dialed opened
          (pre ++ bad :: rest)).opened =
        opened ++ List.range' next pre.length ∧
      (∀ c ∈ (connectLoop dialOk nodes rid next conns dialed opened
          (pre ++ bad :: rest)).opened,
        c ∈ (connectLoop dialOk nodes rid next conns dialed opened
          (pre ++ bad :: rest)).closed) := by
  intro pre
  induction pre with
  | nil =>
    intro next conns dialed opened _ _ hinv
    rw [List.nil_append, connectLoop_cons, hbad]
    refine ⟨rfl, rfl, (List.append_nil opened).symm, ?_⟩
    intro c hc
    rcases hinv c hc with ⟨addr, hmem, _⟩
    exact List.mem_map_of_mem Prod.snd hmem
  | cons n pre ih =>
    intro next conns dialed opened hpre hdup hinv
    have hn : dialOk n = true := hpre n (List.mem_cons_self n pre)
    simp only [List.cons_append, connectLoop_cons, hn]
    have hnodup := List.nodup_cons.mp hdup
    have IH := ih (next + 1) (insertConn conns n next) (dialed ++ [n])
      (opened ++ [next])
      (fun m hm => hpre m (List.mem_cons_of_mem n hm))
      hnodup.2
      (fun c hc => by
        rcases List.mem_append.mp hc with h | h
        · rcases hinv c h with ⟨addr, haddr, hnotin⟩
          have hne : addr ≠ n :=
            fun he => hnotin (he ▸ List.mem_cons_self n pre)
          exact ⟨addr, mem_insertConn_of_ne conns n next addr c haddr hne,
            fun hin => hnotin (List.mem_cons_of_mem n hin)⟩
        · have hcnext : c = next := List.mem_singleton.mp h
          subst hcnext
          exact ⟨n, mem_insertConn_self conns n c, hnodup.1⟩)
    refine ⟨IH.1, IH.2.1, ?_, IH.2.2.2⟩
    rw [IH.2.2.1, List.append_assoc]
    rfl

/-- C3 counterexample: node list `["a", "a", "b"]` with `"a"` reachable
and `"b"` not.  The first two dials succeed — handles 0 and 1 are both
opened during the call — but the map assignment for the repeated address
overwrites the entry holding handle 0, so `closeConnections` at the
`"b"` failure closes only the surviving handle 1: a connection opened
during the call is leaked, refuting "every connection opened during this
call is closed". -/
theorem connect_duplicateNode_leaks :
    (Connect (fun s => s == "a") 0 (NewReplset ["a", "a", "b"])).res =
      .error (.dialFailed "b") ∧
    0 ∈ (Connect (fun s => s == "a") 0 (NewReplset ["a", "a", "b"])).opened ∧
    0 ∉ (Connect (fun s => s == "a") 0 (NewReplset ["a", "a", "b"])).closed :=
  ⟨rfl, by decide, by decide⟩

/-- C3 (amended): when `Connect` fails at the `(K+1)`-th address after
the first `K` succeeded **and the `K` successfully dialed addresses are
pairwise distinct**, every connection opened during the call (the `K`
fresh handles) is closed before the error is returned, the error names
the unreachable node, and the instance is left unconnected with an empty
connection set.  (With a repeated address in the prefix, the connection
displaced by the map overwrite is leaked.) -/
theorem connect_partialFailure_rollsBack (dialOk : String → Bool)
    (next : ConnId) (r : Replset) (pre : List String) (bad : String)
    (rest : List String)
    (hnodes : r.nodes = pre ++ bad :: rest)
    (hpre : ∀ n ∈ pre, dialOk n = true)
    (hbad : dialOk bad = false)
    (hdup : pre.Nodup) :
    (Connect dialOk next r).res = .error (.dialFailed bad) ∧
    (Connect dialOk next r).opened = List.range' next pre.length ∧
    (∀ c ∈ (Connect dialOk next r).opened,
      c ∈ (Connect dialOk next r).closed) ∧
    (Connect dialOk next r).state.conns = [] ∧
    IsConnected (Connect dialOk next r).state = false := by
  unfold Connect
  rw [hnodes]
  have H := connectLoop_fail dialOk (pre ++ bad :: rest) r.requestID bad rest
    hbad pre next r.conns [] [] hpre hdup
    (fun c hc => absurd hc (List.not_mem_nil c))
  refine ⟨H.1, by rw [H.2.2.1]; rfl, H.2.2.2, H.2.1, ?_⟩
  rw [IsConnected, H.2.1]
  rfl

/-- C3 witness: nodes `["a", "b"]` (duplicate-free prefix) where dialing
`"a"` succeeds and dialing `"b"` fails. -/
theorem connect_partialFailure_rollsBack_witness :
    ((NewReplset ["a", "b"]).nodes = ["a"] ++ "b" :: [] ∧
      (∀ n ∈ ["a"], (fun m => m == "a") n = true) ∧
      (fun m => m == "a") "b" = false ∧
      (["a"] : List String).Nodup) ∧
    ((Connect (fun m => m == "a") 0 (NewReplset ["a", "b"])).res =
        .error (.dialFailed "b") ∧
      (Connect (fun m => m == "a") 0 (NewReplset ["a", "b"])).opened =
        List.range' 0 (["a"] : List String).length ∧
      (∀ c ∈ (Connect (fun m => m == "a") 0 (NewReplset ["a", "b"])).opened,
        c ∈ (Connect (fun m => m == "a") 0 (NewReplset ["a", "b"])).closed) ∧
      (Connect (fun m => m == "a") 0 (NewReplset ["a", "b"])).state.conns =
        [] ∧
      IsConnected
        (Connect (fun m => m == "a") 0 (NewReplset ["a", "b"])).state =
        false) :=
  ⟨⟨rfl, by decide, by decide, by decide⟩,
    connect_partialFailure_rollsBack (fun m => m == "a") 0
      (NewReplset ["a", "b"]) ["a"] "b" [] rfl (by decide) (by decide)
      (by decide)⟩

-- ### The state change of `SendMessage`

theorem sendMessage_state_eq (net : Network) (r : Replset) (opCode : Int)
    (payload : List Nat) (hc : r.conns ≠ []) :
    (SendMessage net r opCode payload).state =
      { r with requestID := wrap32 (r.requestID + 1) } := by
  rcases h : r.conns with _ | ⟨⟨node, cid⟩, restConns⟩
  · exact absurd h hc
  · simp only [SendMessage, h]
    split
    · split <;> rfl
    · rfl

/-- C10: `SendMessage` never modifies the node list or the connection
map; with a non-empty connection set its only state change is the
`requestID` increment, and the increment is retained even when the write
or the read fails, since the statement holds for every network behaviour
`net`. -/
theorem sendMessage_stateFrame (net : Network) (r : Replset) (opCode : Int)
    (payload : List Nat) :
    (SendMessage net r opCode payload).state.nodes = r.nodes ∧
    (SendMessage net r opCode payload).state.conns = r.conns ∧
    (r.conns ≠ [] →
      (SendMessage net r opCode payload).state =
        { r with requestID := wrap32 (r.requestID + 1) }) := by
  by_cases hc : r.conns = []
  · rw [sendMessage_empty_eq net r opCode payload hc]
    exact ⟨rfl, rfl, fun hne => absurd hc hne⟩
  · rw [sendMessage_state_eq net r opCode payload hc]
    exact ⟨rfl, rfl, fun _ => rfl⟩

-- ### The kind-1 section size accumulator

theorem commandTotalSize_emod (documents : List (List Nat)) :
    ∀ s : Int,
      documents.foldl (fun acc doc => wrap32 (acc + wrap32 (doc.length : Int)))
          s % 2 ^ 32 =
        (s + (((documents.map List.length).sum : Nat) : Int)) % 2 ^ 32 := by
  induction documents with
  | nil => intro s; simp
  | cons d ds ih =>
    intro s
    rw [List.foldl_cons, ih]
    have e1 : wrap32 (s + wrap32 (d.length : Int)) % 2 ^ 32 =
        (s + (d.length : Int)) % 2 ^ 32 := by
      rw [wrap32_emod, Int.add_emod, wrap32_emod, ← Int.add_emod]
    rw [Int.add_emod, e1, ← Int.add_emod]
    rw [List.map_cons, List.sum_cons]
    push_cast
    ring_nf

/-- The byte-level shape of the command payload: the size field holds the
exact section size reduced modulo `2^32` (the value the `int32`
accumulator wraps to, re-read as `uint32`). -/
theorem buildCommandPayload_shape (command : List Nat)
    (documents : List (List Nat)) :
    buildCommandPayload command documents =
      [0, 0, 0, 0] ++ [0] ++ command ++
        (if documents.isEmpty then []
         else [1] ++
           putUint32LE ((4 + (documentsIdentifier.length + 1) +
             (documents.map List.length).sum) % 2 ^ 32) ++
           documentsIdentifier ++ [0] ++ documents.flatten) := by
  by_cases hd : documents.isEmpty
  · simp [buildCommandPayload, hd, putUint32LE]
  · simp only [buildCommandPayload, hd, Bool.false_eq_true, if_false]
    have hsize : toUInt32 (documents.foldl
        (fun acc doc => wrap32 (acc + wrap32 (doc.length : Int)))
        (wrap32 ((4 : Int) + wrap32 ((documentsIdentifier.length : Int) + 1)))) =
        (4 + (documentsIdentifier.length + 1) +
          (documents.map List.length).sum) % 2 ^ 32 := by
      have h := commandTotalSize_emod documents
        (wrap32 ((4 : Int) + wrap32 ((documentsIdentifier.length : Int) + 1)))
      have hs : wrap32 ((4 : Int) +
          wrap32 ((documentsIdentifier.length : Int) + 1)) = 14 := by decide
      unfold toUInt32
      rw [hs] at h ⊢
      rw [h]
      rw [show documentsIdentifier.length = 9 from rfl]
      omega
    rw [hsize]
    simp [putUint32LE, List.append_assoc]

/-- C5 (amended): the command payload is the 4 zero flag bytes, the
kind-0 tag byte, the command bytes, and — exactly when the document
sequence is non-empty — one kind-1 section: tag byte 1, a 4-byte
little-endian size equal to `4 + len("documents") + 1 + Σ len(docᵢ)`
**reduced modulo `2^32`** (the `int32` size accumulator wraps; the value
is the exact sum whenever that sum is below `2^32`), the identifier
`"documents"` null-terminated, and the documents concatenated in input
order; an empty sequence emits no kind-1 section at all. -/
theorem buildCommandPayload_bytes (command : List Nat)
    (documents : List (List Nat)) :
    buildCommandPayload command documents =
      [0, 0, 0, 0] ++ [0] ++ command ++
        (if documents.isEmpty then []
         else [1] ++
           putUint32LE ((4 + (documentsIdentifier.length + 1) +
             (documents.map List.length).sum) % 2 ^ 32) ++
           documentsIdentifier ++ [0] ++ documents.flatten) :=
  buildCommandPayload_shape command documents

/-- C5 counterexample: with an empty command and a single document of
`2^32` zero bytes, the emitted kind-1 size field (the 4 bytes at offset
6) decodes to 14, not to the claimed exact size
`4 + len("documents") + 1 + 2^32`: the `int32` accumulator truncates
`int32(len(doc))` to 0. -/
theorem getUint32LE_drop6_shape (c0 c1 c2 c3 c4 c5 : Nat) (n : Nat)
    (rest : List Nat) :
    getUint32LE
        ((c0 :: c1 :: c2 :: c3 :: c4 :: c5 :: (putUint32LE n ++ rest)).drop 6) =
      n % 2 ^ 32 := by
  rw [show (c0 :: c1 :: c2 :: c3 :: c4 :: c5 ::
      (putUint32LE n ++ rest)).drop 6 = putUint32LE n ++ rest from rfl]
  exact getUint32LE_putUint32LE n rest

theorem buildCommandPayload_sizeField_counterexample :
    getUint32LE ((buildCommandPayload []
        [List.replicate (2 ^ 32) 0]).drop 6) ≠
      4 + (documentsIdentifier.length + 1) +
        (([List.replicate (2 ^ 32) (0 : Nat)].map List.length).sum) := by
  rw [buildCommandPayload_shape]
  rw [show ([List.replicate (2 ^ 32) (0 : Nat)].isEmpty) = false from rfl]
  rw [if_neg (by simp)]
  simp only [List.cons_append, List.nil_append, List.append_assoc]
  rw [getUint32LE_drop6_shape]
  rw [show documentsIdentifier.length = 9 from rfl]
  rw [List.map_cons, List.map_nil, List.sum_cons, List.sum_nil,
    List.length_replicate]
  omega

-- ### The write trace of a run of `SendMessage` calls

theorem wrap32_add_add (x y z : Int) :
    wrap32 (wrap32 x + y + z) = wrap32 (x + y + z) := by
  unfold wrap32; omega

theorem requestMessage_wrap32 (opCode rid : Int) (p : List Nat) :
    requestMessage opCode (wrap32 rid) p =
      serializeHeader
        { messageLength := (16 : Int) + p.length
        , requestID := rid, responseTo := 0, opCode := opCode } ++ p := by
  unfold requestMessage serializeHeader HeaderSize
  rw [toUInt32_wrap32, toUInt32_wrap32]
  norm_num

theorem sendMessage_events (net : Network) (r : Replset) (opCode : Int)
    (payload : List Nat) (hc : r.conns ≠ []) :
    writesOf (SendMessage net r opCode payload).events =
      [requestMessage opCode (wrap32 (r.requestID + 1)) payload] := by
  rcases h : r.conns with _ | ⟨⟨node, cid⟩, restConns⟩
  · exact absurd h hc
  · simp only [SendMessage, h]
    split
    · split <;> rfl
    · rfl

theorem runSends_cons (net : Network) (r : Replset) (op : Int)
    (payload : List Nat) (rest : List (Int × List Nat)) :
    runSends net r ((op, payload) :: rest) =
      ((runSends (SendMessage net r op payload).net
          (SendMessage net r op payload).state rest).1,
        writesOf (SendMessage net r op payload).events ++
          (runSends (SendMessage net r op payload).net
            (SendMessage net r op payload).state rest).2) := rfl

theorem runSends_messages (sends : List (Int × List Nat)) :
    ∀ (net : Network) (r : Replset), r.conns ≠ [] →
      (runSends net r sends).2 =
        sends.mapIdx (fun i s =>
          requestMessage s.1 (wrap32 (r.requestID + (i : Int) + 1)) s.2) := by
  induction sends with
  | nil => intro net r _; rfl
  | cons hd rest ih =>
    intro net r hc
    obtain ⟨op, payload⟩ := hd
    rw [runSends_cons]
    have hstate := sendMessage_state_eq net r op payload hc
    rw [sendMessage_events net r op payload hc]
    rw [ih (SendMessage net r op payload).net (SendMessage net r op payload).state
      (by rw [hstate]; exact hc)]
    rw [hstate]
    rw [List.mapIdx_cons]
    have hfun : (fun (i : Nat) (s : Int × List Nat) =>
        requestMessage s.1
          (wrap32 (wrap32 (r.requestID + 1) + (i : Int) + 1)) s.2) =
        (fun (i : Nat) (s : Int × List Nat) =>
          requestMessage s.1
            (wrap32 (r.requestID + ((i + 1 : Nat) : Int) + 1)) s.2) := by
      funext i s
      rw [wrap32_add_add]
      push_cast
      ring_nf
    rw [hfun]
    have h0 : r.requestID + ((0 : Nat) : Int) + 1 = r.requestID + 1 := by
      push_cast; ring
    rw [h0]
    rfl

/-- C7: the `requestID` counter starts at 0 on construction and is
incremented (with `int32` wrap-around) before every outgoing request;
the `k`-th request sent (1-indexed) is the single written byte string
`serializeHeader {messageLength := 16 + len(payload), requestID := k,
responseTo := 0, opCode}` followed by the payload.  (The serialized bytes
of `requestID := k` and of the wrapped counter value coincide for every
`k`, since `serializeHeader` keeps only the 32-bit pattern.) -/
theorem sendMessage_kthRequest (net : Network) (r : Replset)
    (sends : List (Int × List Nat)) (nodes : List String)
    (h0 : r.requestID = 0) (hc : r.conns ≠ []) :
    (NewReplset nodes).requestID = 0 ∧
    (runSends net r sends).2 =
      sends.mapIdx (fun i s =>
        serializeHeader
          { messageLength := (16 : Int) + s.2.length
          , requestID := (i : Int) + 1
          , responseTo := 0
          , opCode := s.1 } ++ s.2) := by
  refine ⟨rfl, ?_⟩
  rw [runSends_messages sends net r hc, h0]
  have hfun : (fun (i : Nat) (s : Int × List Nat) =>
      requestMessage s.1 (wrap32 ((0 : Int) + (i : Int) + 1)) s.2) =
      (fun (i : Nat) (s : Int × List Nat) =>
        serializeHeader
          { messageLength := (16 : Int) + s.2.length
          , requestID := (i : Int) + 1
          , responseTo := 0
          , opCode := s.1 } ++ s.2) := by
    funext i s
    rw [show ((0 : Int) + (i : Int) + 1) = ((i : Int) + 1) by ring]
    exact requestMessage_wrap32 s.1 ((i : Int) + 1) s.2
  rw [hfun]

/-- C7 witness: one send from a fresh counter over a connection. -/
theorem sendMessage_kthRequest_witness :
    ((Replset.mk ["a"] [("a", 0)] 0).requestID = 0 ∧
      (Replset.mk ["a"] [("a", 0)] 0).conns ≠ []) ∧
    ((NewReplset []).requestID = 0 ∧
      (runSends (fun _ => ConnState.mk true []) (Replset.mk ["a"] [("a", 0)] 0)
          [(2013, [7])]).2 =
        [((2013 : Int), [(7 : Nat)])].mapIdx (fun i s =>
          serializeHeader
            { messageLength := (16 : Int) + s.2.length
            , requestID := (i : Int) + 1
            , responseTo := 0
            , opCode := s.1 } ++ s.2)) :=
  ⟨⟨rfl, by simp⟩,
    sendMessage_kthRequest (fun _ => ConnState.mk true [])
      (Replset.mk ["a"] [("a", 0)] 0) [(2013, [7])] [] rfl (by simp)⟩

/-- C10 witness: a connection whose write fails — the increment is still
retained. -/
theorem sendMessage_stateFrame_witness :
    (Replset.mk ["a"] [("a", 0)] 0).conns ≠ [] ∧
    (SendMessage (fun _ => ConnState.mk false [])
        (Replset.mk ["a"] [("a", 0)] 0) 2013 []).state =
      { Replset.mk ["a"] [("a", 0)] 0 with
        requestID := wrap32 ((Replset.mk ["a"] [("a", 0)] 0).requestID + 1) } :=
  ⟨by decide,
    (sendMessage_stateFrame (fun _ => ConnState.mk false [])
      (Replset.mk ["a"] [("a", 0)] 0) 2013 []).2.2 (by decide)⟩

end MongoProxy
